import Mathlib

/-
Verification of the iFunny chat client's real-time protocol core.

This file is a shallow embedding, in Lean 4, of the parts of
`ifunny/client/_handler.py` and `ifunny/client/_client.py` that the
specification's claims are about:

  * the frame decoder used by `Handler.resolve` (Python's `json.loads`
    applied to everything after the first 4 characters of a raw frame);
  * the opcode dispatch of `Handler` (`PING`, `MESG`, `LOGI`, `SYEV`,
    default), including the channel-update sub-dispatch on `payload["cat"]`
    and the event-hook lookup with its `on_default` fallback;
  * the session state mutated by the `LOGI` handler;
  * `Client.login`'s cached-token and password-grant flow (with its single
    retry on HTTP 403), and the other single-request REST helpers;
  * the two-step (locked increment, unlocked read) structure of
    `Client.next_req_id`;
  * the registration decorators `Handler.add`, `Client.command`,
    `Client.event`.

External collaborators (the `ifunny.objects` constructors, the REST
transport, `Client.resolve_command`'s view of a message's text, and the
invitee-membership test of `ChannelInvite`) are modelled as opaque
parameters or as constructor-argument records, exactly at the boundary the
spec draws for them.  Hook invocations and socket/REST traffic are modelled
as an effect trace.  Python exceptions (KeyError, TypeError, NameError,
JSONDecodeError, and the library's BadAPIResponse) are modelled by an
explicit error component of each result.

Modelling notes on JSON: numbers with a fraction or exponent are kept as
their raw lexeme (the claims only involve integer and string payload
fields), and the `NaN`/`Infinity` extensions of Python's parser are not
modelled.  Object keys behave like Python dicts: a duplicate key overwrites
the earlier value.
-/

mutual
/-- JSON values as produced by Python's `json.loads`.  `fnum` keeps the raw
lexeme of a non-integer numeric literal. -/
inductive Json where
  | null
  | bool (b : Bool)
  | num (n : Int)
  | fnum (raw : String)
  | str (s : String)
  | arr (xs : JsonArr)
  | obj (xs : JsonObj)
inductive JsonArr where
  | nil
  | cons (hd : Json) (tl : JsonArr)
inductive JsonObj where
  | nil
  | cons (k : String) (v : Json) (tl : JsonObj)
end

deriving instance DecidableEq for Json, JsonArr, JsonObj

/-- Insertion into a JSON object with Python-dict overwrite semantics:
a repeated key keeps its position and takes the new value. -/
def JsonObj.insert : JsonObj → String → Json → JsonObj
  | .nil, k, v => .cons k v .nil
  | .cons k0 v0 tl, k, v =>
      if k0 = k then .cons k0 v tl else .cons k0 v0 (tl.insert k v)

def JsonObj.lookup : JsonObj → String → Option Json
  | .nil, _ => none
  | .cons k0 v0 tl, k => if k0 = k then some v0 else tl.lookup k

/-- Python exceptions that can escape the embedded code. -/
inductive PyErr where
  | keyError (k : String)
  | typeError
  | nameError (n : String)
  | jsonDecodeError
  | badAPIResponse
deriving DecidableEq

/-- Python's `d[k]`: KeyError on a missing key of a dict, TypeError when the
value subscripted with a string key is not a dict. -/
def Json.subscr : Json → String → Except PyErr Json
  | .obj fields, k =>
      match fields.lookup k with
      | some v => .ok v
      | none => .error (.keyError k)
  | _, _ => .error .typeError

/-- Python truthiness of a JSON-decoded value. -/
def Json.truthy : Json → Bool
  | .null => false
  | .bool b => b
  | .num n => n ≠ 0
  | .fnum _ => true
  | .str s => s ≠ ""
  | .arr .nil => false
  | .arr _ => true
  | .obj .nil => false
  | .obj _ => true

-- ---------------------------------------------------------------------------
-- JSON text decoding (Python json.loads as used by Handler.resolve)
-- ---------------------------------------------------------------------------

def jsonWs (c : Char) : Bool :=
  c = ' ' || c = '\t' || c = '\n' || c = '\r'

def skipWs : List Char → List Char
  | [] => []
  | c :: rest => if jsonWs c then skipWs rest else c :: rest

/-- Consume an expected literal tail (e.g. `ull` after `n`). -/
def dropLit : List Char → List Char → Option (List Char)
  | [], cs => some cs
  | l :: ls, c :: cs => if c = l then dropLit ls cs else none
  | _ :: _, [] => none

def hexVal (c : Char) : Option Nat :=
  if '0' ≤ c ∧ c ≤ '9' then some (c.toNat - '0'.toNat)
  else if 'a' ≤ c ∧ c ≤ 'f' then some (c.toNat - 'a'.toNat + 10)
  else if 'A' ≤ c ∧ c ≤ 'F' then some (c.toNat - 'A'.toNat + 10)
  else none

/-- Decode a JSON string body after the opening quote.  Unescaped control
characters are rejected, as by Python's strict decoder. -/
def parseStringBody : Nat → List Char → Option (String × List Char)
  | 0, _ => none
  | _ + 1, [] => none
  | fuel + 1, c :: rest =>
    if c = '\"' then some ("", rest)
    else if c = '\\' then
      match rest with
      | [] => none
      | e :: rest2 =>
        let cont (ch : Char) (cs : List Char) : Option (String × List Char) :=
          match parseStringBody fuel cs with
          | some (s, r) => some (String.mk (ch :: s.toList), r)
          | none => none
        if e = '\"' then cont '\"' rest2
        else if e = '\\' then cont '\\' rest2
        else if e = '/' then cont '/' rest2
        else if e = 'n' then cont '\n' rest2
        else if e = 't' then cont '\t' rest2
        else if e = 'r' then cont '\r' rest2
        else if e = 'b' then cont '\x08' rest2
        else if e = 'f' then cont '\x0c' rest2
        else if e = 'u' then
          match rest2 with
          | h1 :: h2 :: h3 :: h4 :: rest3 =>
            match hexVal h1, hexVal h2, hexVal h3, hexVal h4 with
            | some a, some b, some c2, some d =>
                let n := ((a * 16 + b) * 16 + c2) * 16 + d
                if n < 0xd800 then cont (Char.ofNat n) rest3 else none
            | _, _, _, _ => none
          | _ => none
        else none
    else if c.toNat < 0x20 then none
    else
      match parseStringBody fuel rest with
      | some (s, r) => some (String.mk (c :: s.toList), r)
      | none => none

def digitsVal : List Char → Nat → Nat
  | [], acc => acc
  | c :: cs, acc => digitsVal cs (acc * 10 + (c.toNat - '0'.toNat))

def takeDigits : List Char → List Char × List Char
  | [] => ([], [])
  | c :: cs =>
      if c.isDigit then
        let (ds, rest) := takeDigits cs
        (c :: ds, rest)
      else ([], c :: cs)

/-- Decode a JSON number.  Integer literals become `Json.num`; literals with
a fraction or exponent are kept as their lexeme in `Json.fnum`. -/
def parseNumber (cs : List Char) : Option (Json × List Char) :=
  let (neg, cs1) := match cs with
    | '-' :: rest => (true, rest)
    | _ => (false, cs)
  match cs1 with
  | [] => none
  | c :: _ =>
    if ¬ c.isDigit then none
    else
      let (intDs, cs2) := takeDigits cs1
      -- JSON forbids leading zeros: the integer part is `0` or starts 1-9
      if intDs.length > 1 ∧ intDs.headD '0' = '0' then none
      else
        let (fracDs, cs3) := match cs2 with
          | '.' :: rest =>
              let (ds, r) := takeDigits rest
              (ds, r)
          | _ => ([], cs2)
        if cs2 ≠ cs3 ∧ fracDs = [] then none
        else
          let hasFrac := cs2 ≠ cs3
          let (hasExp, expDs, cs4) := match cs3 with
            | 'e' :: rest | 'E' :: rest =>
              let rest2 := match rest with
                | '+' :: r => r
                | '-' :: r => r
                | r => r
              let (ds, r) := takeDigits rest2
              (true, ds, r)
            | _ => (false, [], cs3)
          if hasExp ∧ expDs = [] then none
          else if hasFrac ∨ hasExp then
            let lexLen := cs.length - cs4.length
            some (.fnum (String.mk (cs.take lexLen)), cs4)
          else
            let v : Int := Int.ofNat (digitsVal intDs 0)
            some (.num (if neg then -v else v), cs4)

def revApp : JsonArr → JsonArr → JsonArr
  | .nil, acc => acc
  | .cons h t, acc => revApp t (.cons h acc)

mutual
def parseValue : Nat → List Char → Option (Json × List Char)
  | 0, _ => none
  | fuel + 1, cs =>
    match skipWs cs with
    | [] => none
    | c :: rest =>
      if c = 'n' then
        match dropLit ['u', 'l', 'l'] rest with
        | some r => some (.null, r)
        | none => none
      else if c = 't' then
        match dropLit ['r', 'u', 'e'] rest with
        | some r => some (.bool true, r)
        | none => none
      else if c = 'f' then
        match dropLit ['a', 'l', 's', 'e'] rest with
        | some r => some (.bool false, r)
        | none => none
      else if c = '\"' then
        match parseStringBody (rest.length + 1) rest with
        | some (s, r) => some (.str s, r)
        | none => none
      else if c = '[' then
        match skipWs rest with
        | ']' :: r => some (.arr .nil, r)
        | cs2 => parseArrItems fuel cs2 .nil
      else if c = '\x7b' then
        match skipWs rest with
        | '\x7d' :: r => some (.obj .nil, r)
        | cs2 => parseObjItems fuel cs2 .nil
      else if c = '-' ∨ c.isDigit then parseNumber (c :: rest)
      else none

def parseArrItems : Nat → List Char → JsonArr → Option (Json × List Char)
  | 0, _, _ => none
  | fuel + 1, cs, acc =>
    match parseValue fuel cs with
    | none => none
    | some (v, rest) =>
      match skipWs rest with
      | ',' :: r => parseArrItems fuel r (.cons v acc)
      | ']' :: r => some (.arr (revApp (JsonArr.cons v acc) .nil), r)
      | _ => none

def parseObjItems : Nat → List Char → JsonObj → Option (Json × List Char)
  | 0, _, _ => none
  | fuel + 1, cs, acc =>
    match skipWs cs with
    | '\"' :: rest =>
      match parseStringBody (rest.length + 1) rest with
      | none => none
      | some (k, rest2) =>
        match skipWs rest2 with
        | ':' :: rest3 =>
          match parseValue fuel rest3 with
          | none => none
          | some (v, rest4) =>
            match skipWs rest4 with
            | ',' :: r => parseObjItems fuel r (acc.insert k v)
            | '\x7d' :: r => some (.obj (acc.insert k v), r)
            | _ => none
        | _ => none
    | _ => none
end

/-- Python's `json.loads` on a whole document: parse one value, allow only
trailing whitespace.  `none` models a raised `json.JSONDecodeError`. -/
def json_loads (s : String) : Option Json :=
  match parseValue (s.length + 1) s.toList with
  | some (v, rest) => if skipWs rest = [] then some v else none
  | none => none

-- ---------------------------------------------------------------------------
-- Handler (ifunny/client/_handler.py)
-- ---------------------------------------------------------------------------

/-- The message record built by `Handler._on_message`:
`Message(data["msg_id"], data["channel_url"], self.client, data = data)`
followed by `message.invoked = self.client.resolve_command(message)`.
`Message` itself is an external constructor, so the record keeps its
arguments. -/
structure MessageRec where
  msg_id : Json
  channel_url : Json
  data : Json
  invoked : Option Json
deriving DecidableEq

/-- Arguments passed to a user hook.  Each constructor other than `json`
records the arguments of an external `ifunny.objects` constructor:
`channel url` is `Channel(url, client)`, `user uid` is `User(uid, client)`,
`invite data` is `ChannelInvite(data, client)`. -/
inductive HookArg where
  | json (j : Json)
  | message (m : MessageRec)
  | channel (url : Json)
  | user (uid : Json)
  | invite (data : Json)
deriving DecidableEq

/-- Observable actions of the dispatcher: `call name args` is a call of the
user callable registered under `name`; `callDefault args` is a call of the
`on_default` callable, which `Handler._default_event` passes the whole
argument tuple `args` as its single argument; `send s` is
`client.socket.send(s)`. -/
inductive Effect where
  | call (name : String) (args : List HookArg)
  | callDefault (args : List HookArg)
  | send (s : String)
deriving DecidableEq

/-- The collaborators and registered-hook table a `Handler` sees through its
client.  `events` is the set of names registered in `Handler.events`;
`nick` is the value of `client.nick`; `resolveCommand` is the value
`client.resolve_command` returns for the message built from the given
payload (`none` is Python `None`, i.e. no command matched);
`userInInvitees` is the external membership test
`client.user in ChannelInvite(data, client).invitees`. -/
structure HandlerCtx where
  events : List String
  nick : Json
  resolveCommand : Json → Option Json
  userInInvitees : Json → Bool

/-- The session state touched by `Handler._on_connect`:
`client.sendbird_session_key` (initially Python `None`, i.e. `null`) and
`client.socket.connected`. -/
structure SessionState where
  sendbird_session_key : Json
  connected : Bool
deriving DecidableEq

def initialSession : SessionState := ⟨.null, false⟩

/-- Result of dispatching one frame: the session state afterwards, the
effects performed in order, and the exception that escaped, if any. -/
structure DispatchResult where
  state : SessionState
  effects : List Effect
  err : Option PyErr
deriving DecidableEq

/-- `Handler._default_event(*args)`: call the callable registered under
`on_default`, if any, with the argument tuple as a single argument. -/
def defaultEvent (events : List String) (args : List HookArg) : List Effect :=
  if "on_default" ∈ events then [.callDefault args] else []

/-- `self.get_ev(name)(args...)`: call the callable registered under `name`
if present, otherwise fall back to `Handler._default_event`. -/
def get_ev_invoke (events : List String) (name : String) (args : List HookArg) :
    List Effect :=
  if name ∈ events then [.call name args] else defaultEvent events args

/-- The PONG payload `Handler._on_ping` serializes:
`{"id": data["id"], "ts": timestamp, "sts": timestamp}`. -/
def pongPayload (idv : Json) (ts : Int) : Json :=
  .obj (.cons "id" idv (.cons "ts" (.num ts) (.cons "sts" (.num ts) .nil)))

/-- `Handler._on_ping`: invoke the `on_ping` hook with the payload, compute
`timestamp = int(time() * 1000)` (the `now` argument), build the PONG
payload from `data["id"]`, then execute `client.socket.send(...)`.  The
name `client` is unbound at module level in `_handler.py` (the method's
other lines use `self.client`), so evaluating it raises `NameError` and the
send never happens. -/
def handler_on_ping (ctx : HandlerCtx) (st : SessionState) (now : Int)
    (data : Json) : DispatchResult :=
  let effs := get_ev_invoke ctx.events "on_ping" [.json data]
  match data.subscr "id" with
  | .error e => ⟨st, effs, some e⟩
  | .ok idv =>
      let _pong := pongPayload idv now
      ⟨st, effs, some (.nameError "client")⟩

/-- `Handler._on_message`: drop the frame when
`data["user"]["name"] == self.client.nick`; otherwise build the message
record, set `invoked` from `client.resolve_command`, and invoke the
`on_message` hook with it. -/
def handler_on_message (ctx : HandlerCtx) (st : SessionState) (data : Json) :
    DispatchResult :=
  match data.subscr "user" with
  | .error e => ⟨st, [], some e⟩
  | .ok u =>
    match u.subscr "name" with
    | .error e => ⟨st, [], some e⟩
    | .ok nm =>
      if nm = ctx.nick then ⟨st, [], none⟩
      else
        match data.subscr "msg_id" with
        | .error e => ⟨st, [], some e⟩
        | .ok mid =>
          match data.subscr "channel_url" with
          | .error e => ⟨st, [], some e⟩
          | .ok cu =>
            let msg : MessageRec := ⟨mid, cu, data, ctx.resolveCommand data⟩
            ⟨st, get_ev_invoke ctx.events "on_message" [.message msg], none⟩

/-- `Handler._on_connect`: store `data["key"]` in
`client.sendbird_session_key`, set `client.socket.connected = True`, then
invoke the `on_connect` hook with the payload. -/
def handler_on_connect (ctx : HandlerCtx) (st : SessionState) (data : Json) :
    DispatchResult :=
  match data.subscr "key" with
  | .error e => ⟨st, [], some e⟩
  | .ok k => ⟨⟨k, true⟩, get_ev_invoke ctx.events "on_connect" [.json data], none⟩

/-- `Handler._on_invite`: build `ChannelInvite(data, client)`; invoke
`on_invite` when `client.user in invite.invitees`, else
`on_invite_broadcast`. -/
def handler_on_invite (ctx : HandlerCtx) (data : Json) :
    List Effect × Option PyErr :=
  if ctx.userInInvitees data then
    (get_ev_invoke ctx.events "on_invite" [.invite data], none)
  else
    (get_ev_invoke ctx.events "on_invite_broadcast" [.invite data], none)

/-- `Handler._on_user_exit`: build `Channel(data["channel_url"], client)`
and `User(data["data"]["user_id"], client)`, invoke `on_user_exit` with
them. -/
def handler_on_user_exit (ctx : HandlerCtx) (data : Json) :
    List Effect × Option PyErr :=
  match data.subscr "channel_url" with
  | .error e => ([], some e)
  | .ok cu =>
    match data.subscr "data" with
    | .error e => ([], some e)
    | .ok d =>
      match d.subscr "user_id" with
      | .error e => ([], some e)
      | .ok uid =>
        (get_ev_invoke ctx.events "on_user_exit" [.user uid, .channel cu], none)

/-- `Handler._on_user_join`: same as `_on_user_exit` with the
`on_user_join` hook. -/
def handler_on_user_join (ctx : HandlerCtx) (data : Json) :
    List Effect × Option PyErr :=
  match data.subscr "channel_url" with
  | .error e => ([], some e)
  | .ok cu =>
    match data.subscr "data" with
    | .error e => ([], some e)
    | .ok d =>
      match d.subscr "user_id" with
      | .error e => ([], some e)
      | .ok uid =>
        (get_ev_invoke ctx.events "on_user_join" [.user uid, .channel cu], none)

/-- `self.channel_update_codes.get(data["cat"], self._default_event)(data)`
with `channel_update_codes = {10020: _on_invite, 10001: _on_user_exit,
10000: _on_user_join}`. -/
def channel_update_route (ctx : HandlerCtx) (catv : Json) (data : Json) :
    List Effect × Option PyErr :=
  if catv = .num 10020 then handler_on_invite ctx data
  else if catv = .num 10001 then handler_on_user_exit ctx data
  else if catv = .num 10000 then handler_on_user_join ctx data
  else (defaultEvent ctx.events [.json data], none)

/-- `Handler._on_channel_update`: build `Channel(data["channel_url"],
client)`, sub-dispatch on `data["cat"]`, then invoke the
`on_channel_update` hook with the channel.  An exception in the sub-handler
propagates and skips the hook. -/
def handler_on_channel_update (ctx : HandlerCtx) (st : SessionState)
    (data : Json) : DispatchResult :=
  match data.subscr "channel_url" with
  | .error e => ⟨st, [], some e⟩
  | .ok cu =>
    match data.subscr "cat" with
    | .error e => ⟨st, [], some e⟩
    | .ok catv =>
      match channel_update_route ctx catv data with
      | (effs, some e) => ⟨st, effs, some e⟩
      | (effs, none) =>
        ⟨st,
         effs ++ get_ev_invoke ctx.events "on_channel_update" [.channel cu],
         none⟩

/-- `self.matches.get(key, self._default_match)(key, data)` with
`matches = {"PING": _on_ping, "MESG": _on_message, "LOGI": _on_connect,
"SYEV": _on_channel_update}`; `_default_match` returns `None`. -/
def handler_dispatch (ctx : HandlerCtx) (st : SessionState) (now : Int)
    (key : String) (data : Json) : DispatchResult :=
  if key = "PING" then handler_on_ping ctx st now data
  else if key = "MESG" then handler_on_message ctx st data
  else if key = "LOGI" then handler_on_connect ctx st data
  else if key = "SYEV" then handler_on_channel_update ctx st data
  else ⟨st, [], none⟩

/-- `Handler.resolve`: `key, data = data[:4], json.loads(data[4:])`, then
dispatch.  A `json.loads` failure propagates out of `resolve` before any
handler runs. -/
def handler_resolve (ctx : HandlerCtx) (st : SessionState) (now : Int)
    (raw : String) : DispatchResult :=
  match json_loads (raw.drop 4) with
  | none => ⟨st, [], some .jsonDecodeError⟩
  | some data => handler_dispatch ctx st now (raw.take 4) data

-- ---------------------------------------------------------------------------
-- Client (ifunny/client/_client.py)
-- ---------------------------------------------------------------------------

/-- HTTP and sleep actions performed by the embedded `Client` methods. -/
inductive ClientEffect where
  | getAccount
  | postToken
  | sleep (secs : Nat)
  | getChannels
  | postUpload
  | postImage
deriving DecidableEq

/-- The client state `Client.login` reads and writes: the `authenticated`
flag, the bearer token `self.__token` (`none` is Python `None`), and the
on-disk config dict `self.__config`. -/
structure ClientState where
  authenticated : Bool
  token : Option Json
  config : JsonObj
deriving DecidableEq

/-- Responses the REST collaborator returns during one `login` call:
the status of the cached-token validation `GET /account`, and the status
and JSON body of the first and (if reached) second `POST /oauth2/token`. -/
structure HttpEnv where
  accountStatus : Nat
  tokenStatus1 : Nat
  tokenBody1 : Json
  tokenStatus2 : Nat
  tokenBody2 : Json

/-- Result of a `Client.login` call: state afterwards, effect trace, the
exception that escaped (if any), and whether the method returned `self`. -/
structure LoginResult where
  state : ClientState
  effects : List ClientEffect
  err : Option PyErr
  returnedSelf : Bool
deriving DecidableEq

/-- Tail of `Client.login` after a 200 grant response:
`self.__token = response.json()["access_token"]`,
`self.authenticated = True`,
`self.__config[f"(email)_token"] = self.__token`, write the config, return
`self`. -/
def finishLogin (body : Json) (c : ClientState) (email : String)
    (effs : List ClientEffect) : LoginResult :=
  match body.subscr "access_token" with
  | .error e => ⟨c, effs, some e, false⟩
  | .ok tok =>
      ⟨⟨true, some tok, c.config.insert (email ++ "_token") tok⟩,
       effs, none, true⟩

/-- The password-grant section of `Client.login`:
`POST /oauth2/token`; on status 403 `time.sleep(10)` and POST once more;
then a non-200 status raises `BadAPIResponse`, and a 200 status stores the
token. -/
def grantFlow (env : HttpEnv) (c : ClientState) (email : String)
    (effs : List ClientEffect) : LoginResult :=
  if env.tokenStatus1 = 403 then
    let effs2 := effs ++ [.postToken, .sleep 10, .postToken]
    if env.tokenStatus2 ≠ 200 then ⟨c, effs2, some .badAPIResponse, false⟩
    else finishLogin env.tokenBody2 c email effs2
  else
    let effs1 := effs ++ [.postToken]
    if env.tokenStatus1 ≠ 200 then ⟨c, effs1, some .badAPIResponse, false⟩
    else finishLogin env.tokenBody1 c email effs1

/-- `Client.login(email, password, force)`.  When `self.authenticated` is
already true the source executes `raise AlreadyAuthenticated(...)`, but
`AlreadyAuthenticated` is not among the names imported in `_client.py`
(line 15 imports only `ChatAlreadyActive`, `BadAPIResponse`,
`ChatNotActive`) and is defined nowhere in the module, so evaluating the
name raises `NameError` before anything is mutated.  Otherwise: when
`force` is false and the config holds a truthy `f"(email)_token"`, adopt it
and validate with `GET /account`, returning on 200; in every other case
fall through to the password grant. -/
def login (env : HttpEnv) (c : ClientState) (email : String) (force : Bool) :
    LoginResult :=
  if c.authenticated then
    ⟨c, [], some (.nameError "AlreadyAuthenticated"), false⟩
  else
    match (if force then none else c.config.lookup (email ++ "_token")) with
    | some cached =>
      if cached.truthy then
        let c1 := { c with token := some cached }
        if env.accountStatus = 200 then
          ⟨{ c1 with authenticated := true }, [.getAccount], none, true⟩
        else
          grantFlow env c1 email [.getAccount]
      else grantFlow env c email []
    | none => grantFlow env c email []

/-- `Client._channels_paginated`: one `GET my_group_channels`; a non-200
status raises `BadAPIResponse`; no retry. -/
def channels_paginated (status : Nat) (body : Json) :
    List ClientEffect × Option PyErr :=
  if status ≠ 200 then ([.getChannels], some .badAPIResponse)
  else
    match body.subscr "next" with
    | .error e => ([.getChannels], some e)
    | .ok _ =>
      match body.subscr "channels" with
      | .error e => ([.getChannels], some e)
      | .ok _ => ([.getChannels], none)

/-- `Client.sendbird_upload`: one `POST storage/file`; a non-200 status
raises `BadAPIResponse`; no retry. -/
def sendbird_upload (status : Nat) (body : Json) :
    List ClientEffect × Option PyErr :=
  if status ≠ 200 then ([.postUpload], some .badAPIResponse)
  else
    match body.subscr "url" with
    | .error e => ([.postUpload], some e)
    | .ok _ => ([.postUpload], none)

/-- `Client.post_image`: one `POST content`; returns whether the status is
202; never raises and never retries. -/
def post_image (status : Nat) : List ClientEffect × Bool :=
  ([.postImage], status = 202)

-- ---------------------------------------------------------------------------
-- Client.next_req_id as an interleaving of atomic steps
-- ---------------------------------------------------------------------------

/-- Two concurrent calls of the `Client.next_req_id` property over the
shared `self.__sendbird_req_id` counter.  Each call is two atomic steps,
exactly as the source orders them:
step 0: `self.__sendbird_lock.acquire(); self.__sendbird_req_id += 1;
self.__sendbird_lock.release()` (the lock makes the increment one atomic
step); step 1: `return self.__sendbird_req_id` — a read of the shared
counter performed after the lock has been released.  `pc` counts the steps
a call has executed and `ret` is its returned value once finished. -/
structure AllocState where
  counter : Int
  pc0 : Nat
  pc1 : Nat
  ret0 : Option Int
  ret1 : Option Int
deriving DecidableEq

/-- One atomic step of a single `next_req_id` call. -/
def allocStep (c : Int) (pc : Nat) (ret : Option Int) :
    Int × Nat × Option Int :=
  match pc with
  | 0 => (c + 1, 1, ret)
  | 1 => (c, 2, some c)
  | _ => (c, pc, ret)

/-- Run a schedule: `false` steps call 0, `true` steps call 1. -/
def runSched : AllocState → List Bool → AllocState
  | s, [] => s
  | s, t :: rest =>
    if t then
      match allocStep s.counter s.pc1 s.ret1 with
      | (c, pc, r) => runSched ⟨c, s.pc0, pc, s.ret0, r⟩ rest
    else
      match allocStep s.counter s.pc0 s.ret0 with
      | (c, pc, r) => runSched ⟨c, pc, s.pc1, r, s.ret1⟩ rest

-- ---------------------------------------------------------------------------
-- Registration decorators (Handler.add, Client.command, Client.event)
-- ---------------------------------------------------------------------------

/-- Values stored by the three registration decorators: `raw m` is the
plain function `Handler.add` stores, `command m n` is `Command(method,
_name)`, `event m n` is `Event(method, _name)`; `m` stands for the
decorated function (identified by its `__name__`). -/
inductive RegVal where
  | raw (methodName : String)
  | command (methodName : String) (regName : String)
  | event (methodName : String) (regName : String)
deriving DecidableEq

/-- Python dict assignment `d[k] = v` on an association list. -/
def assocSet {α : Type} (d : List (String × α)) (k : String) (v : α) :
    List (String × α) :=
  match d with
  | [] => [(k, v)]
  | (k0, v0) :: tl => if k0 = k then (k0, v) :: tl else (k0, v0) :: assocSet tl k v

/-- The `_inner` closure of `Handler.add`: compute
`_name = name if name else method.__name__`, store the method in
`self.events`, and fall off the end — returning Python `None` (the second
component), which decorator application then binds to the decorated
name. -/
def handler_add_inner (events : List (String × RegVal)) (name : Option String)
    (methodName : String) : List (String × RegVal) × Option RegVal :=
  let n := name.getD methodName
  (assocSet events n (.raw methodName), none)

/-- The `_inner` closure of `Client.command`: store
`Command(method, _name)` in `self.commands` and return `None`. -/
def client_command_inner (commands : List (String × RegVal))
    (name : Option String) (methodName : String) :
    List (String × RegVal) × Option RegVal :=
  let n := name.getD methodName
  (assocSet commands n (.command methodName n), none)

/-- The `_inner` closure of `Client.event`: store `Event(method, _name)` in
`self.handler.events` and return `None`. -/
def client_event_inner (events : List (String × RegVal))
    (name : Option String) (methodName : String) :
    List (String × RegVal) × Option RegVal :=
  let n := name.getD methodName
  (assocSet events n (.event methodName n), none)

-- ---------------------------------------------------------------------------
-- Derived notions and concrete instances used by the theorems
-- ---------------------------------------------------------------------------

deriving instance DecidableEq for Except

/-- Number of calls of the user callable registered under `name` in an
effect trace (fallback `on_default` calls are not calls of `name`). -/
def countCalls (effs : List Effect) (name : String) : Nat :=
  (effs.filter (fun e => match e with
    | .call n _ => n == name
    | _ => false)).length

/-- The spec's session-state invariant: a connected session has a session
key (the stored key is not Python `None`). -/
def sessionInv (st : SessionState) : Prop :=
  st.connected = true → st.sendbird_session_key ≠ .null

instance (st : SessionState) : Decidable (sessionInv st) := by
  unfold sessionInv
  infer_instance

/-- A concrete handler context: every hook name of the source's event list
is registered, the local user's nick is `self_user`, no chat command ever
matches, and the local user is never among an invite's invitees. -/
def ctx0 : HandlerCtx :=
  ⟨["on_message", "on_channel_update", "on_invite", "on_invite_broadcast",
    "on_user_join", "on_user_exit", "on_ping", "on_connect", "on_default",
    "on_disconnect"],
   .str "self_user", fun _ => none, fun _ => false⟩

def mesgSampleUser : Json := .obj (.cons "name" (.str "other") .nil)

/-- A well-formed `MESG` payload from a user other than `ctx0`'s. -/
def mesgSample : Json :=
  .obj (.cons "user" mesgSampleUser
    (.cons "msg_id" (.str "m1") (.cons "channel_url" (.str "c1") .nil)))

/-- A well-formed `SYEV` payload with `cat = 10000` (user join). -/
def syevJoinSample : Json :=
  .obj (.cons "channel_url" (.str "ch")
    (.cons "cat" (.num 10000)
      (.cons "data" (.obj (.cons "user_id" (.str "u9") .nil)) .nil)))

/-- A well-formed `SYEV` payload with `cat = 10020` (invite). -/
def syevInviteSample : Json :=
  .obj (.cons "channel_url" (.str "ch") (.cons "cat" (.num 10020) .nil))

/-- A well-formed `LOGI` payload carrying a session key. -/
def logiSample : Json := .obj (.cons "key" (.str "s3ss10n") .nil)

/-- A REST environment in which every call succeeds. -/
def env0 : HttpEnv := ⟨200, 200, .null, 200, .null⟩

/-- A REST environment whose first grant POST is forbidden (403) and whose
retry fails with 500. -/
def env403 : HttpEnv := ⟨200, 403, .null, 500, .null⟩

def authedClient : ClientState := ⟨true, none, .nil⟩

def freshClient : ClientState := ⟨false, none, .nil⟩

-- ---------------------------------------------------------------------------
-- Helper lemmas
-- ---------------------------------------------------------------------------

theorem countCalls_append (a b : List Effect) (name : String) :
    countCalls (a ++ b) name = countCalls a name + countCalls b name := by
  simp [countCalls, List.filter_append]

/-- A `get_ev` invocation contributes one `call n` effect exactly when `n`
is the looked-up name and it is registered. -/
theorem countCalls_get_ev (events : List String) (m n : String)
    (args : List HookArg) :
    countCalls (get_ev_invoke events m args) n =
      if m ∈ events ∧ n = m then 1 else 0 := by
  by_cases h : m ∈ events <;> by_cases h3 : n = m <;>
    by_cases h2 : "on_default" ∈ events <;>
    simp [get_ev_invoke, defaultEvent, countCalls, h, h3, h2] <;>
    exact fun hmn => h3 hmn.symm

theorem handler_on_message_state (ctx : HandlerCtx) (st : SessionState)
    (data : Json) : (handler_on_message ctx st data).state = st := by
  unfold handler_on_message
  repeat' split <;> try rfl

theorem handler_on_ping_state (ctx : HandlerCtx) (st : SessionState)
    (now : Int) (data : Json) :
    (handler_on_ping ctx st now data).state = st := by
  unfold handler_on_ping
  repeat' split <;> try rfl

theorem handler_on_channel_update_state (ctx : HandlerCtx) (st : SessionState)
    (data : Json) : (handler_on_channel_update ctx st data).state = st := by
  unfold handler_on_channel_update
  repeat' split <;> try rfl

/-- Dispatch leaves the session state unchanged except on the `LOGI` path,
which stores the payload's key and connects. -/
theorem handler_dispatch_state (ctx : HandlerCtx) (st : SessionState)
    (now : Int) (key : String) (data : Json) :
    (handler_dispatch ctx st now key data).state = st ∨
    (key = "LOGI" ∧ ∃ k, data.subscr "key" = .ok k ∧
      (handler_dispatch ctx st now key data).state = ⟨k, true⟩) := by
  unfold handler_dispatch
  by_cases h1 : key = "PING"
  · simp [h1, handler_on_ping_state]
  · by_cases h2 : key = "MESG"
    · simp [h1, h2, handler_on_message_state]
    · by_cases h3 : key = "LOGI"
      · simp only [h1, h2, h3, if_false, if_true, if_neg, if_pos]
        unfold handler_on_connect
        cases hk : data.subscr "key" with
        | error e => simp [hk, h3]
        | ok k => exact Or.inr ⟨trivial, k, rfl, rfl⟩
      · by_cases h4 : key = "SYEV" <;>
          simp [h1, h2, h3, h4, handler_on_channel_update_state]

/-- Python dict assignment makes the assigned key map to the assigned
value. -/
theorem assocSet_lookup {α : Type} (d : List (String × α)) (k : String) (v : α) :
    (assocSet d k v).lookup k = some v := by
  induction d with
  | nil => simp [assocSet, List.lookup]
  | cons hd tl ih =>
    obtain ⟨k0, v0⟩ := hd
    by_cases h : k0 = k
    · simp [assocSet, List.lookup, h]
    · have hbeq : (k == k0) = false := beq_eq_false_iff_ne.mpr (Ne.symm h)
      simp [assocSet, List.lookup, h, hbeq, ih]

-- ---------------------------------------------------------------------------
-- Claims
-- ---------------------------------------------------------------------------

/-- C1: the claim says a `PING` frame with an `id` field makes the handler
invoke `on_ping` and then send exactly one `PONG` frame.  Evaluating the
code on such a frame shows the `on_ping` hook is invoked but the dispatch
then raises `NameError` — the source's `client.socket.send(...)` reads the
unbound name `client` instead of `self.client` — and nothing is ever sent
over the socket. -/
theorem ping_dispatch_raises_nameerror_no_pong :
    handler_resolve ctx0 initialSession 1700000000000 "PING\x7b\"id\": \"x\"\x7d" =
      ⟨initialSession,
       [.call "on_ping" [.json (.obj (.cons "id" (.str "x") .nil))]],
       some (.nameError "client")⟩ := by decide

/-- C2 counterexample: the claim says `resolve` does not raise on a
malformed frame.  On the concrete raw string `MESGnot json` (remainder not
valid JSON) `resolve` propagates the JSON decode error — its error
component is not `none` — so the claim as stated is false. -/
theorem resolve_raises_on_malformed_frame :
    (handler_resolve ctx0 initialSession 0 "MESGnot json").err ≠ none ∧
    handler_resolve ctx0 initialSession 0 "MESGnot json" =
      ⟨initialSession, [], some .jsonDecodeError⟩ := by decide

/-- C2 (amended): for every raw inbound string whose remainder after the
first 4 characters is not valid JSON (including strings of fewer than 4
characters, whose remainder is empty), `resolve` raises the JSON decode
error to its caller; no opcode handler or registered hook is invoked and
the session state is unchanged. -/
theorem resolve_propagates_decode_error (ctx : HandlerCtx) (st : SessionState)
    (now : Int) (raw : String) (h : json_loads (raw.drop 4) = none) :
    handler_resolve ctx st now raw = ⟨st, [], some .jsonDecodeError⟩ := by
  unfold handler_resolve
  rw [h]

/-- C2 witness: the 4-character raw string `LOGI` has an empty remainder,
which is not valid JSON, and `resolve` on it raises the decode error with
no hook invoked. -/
theorem resolve_propagates_decode_error_witness :
    json_loads ("LOGI".drop 4) = none ∧
    handler_resolve ctx0 initialSession 0 "LOGI" =
      ⟨initialSession, [], some .jsonDecodeError⟩ :=
  ⟨by decide,
   resolve_propagates_decode_error ctx0 initialSession 0 "LOGI" (by decide)⟩

/-- C3: for a well-formed `MESG` frame, if the sender's name equals the
local user's nick the frame is discarded (no effect, no error, state
unchanged) and `on_message` is never invoked; otherwise the message record
is built, its `invoked` field is the result of command resolution, and the
`on_message` hook is invoked with it whatever that result was. -/
theorem mesg_self_discard_or_on_message (ctx : HandlerCtx) (st : SessionState)
    (now : Int) (data u nm : Json)
    (hu : data.subscr "user" = .ok u) (hn : u.subscr "name" = .ok nm) :
    (nm = ctx.nick → handler_dispatch ctx st now "MESG" data = ⟨st, [], none⟩) ∧
    (nm ≠ ctx.nick → ∀ mid cu : Json, data.subscr "msg_id" = .ok mid →
      data.subscr "channel_url" = .ok cu →
      handler_dispatch ctx st now "MESG" data =
        ⟨st, get_ev_invoke ctx.events "on_message"
          [.message ⟨mid, cu, data, ctx.resolveCommand data⟩], none⟩) := by
  constructor
  · intro h
    simp [handler_dispatch, handler_on_message, hu, hn, h]
  · intro h mid cu hm hc
    simp [handler_dispatch, handler_on_message, hu, hn, h, hm, hc]

/-- C3 witness: a concrete `MESG` payload from the user `other`, dispatched
against a context whose nick is `self_user`, invokes `on_message` with the
constructed record. -/
theorem mesg_self_discard_or_on_message_witness :
    mesgSample.subscr "user" = .ok mesgSampleUser ∧
    mesgSampleUser.subscr "name" = .ok (.str "other") ∧
    ((Json.str "other" = ctx0.nick →
       handler_dispatch ctx0 initialSession 0 "MESG" mesgSample =
         ⟨initialSession, [], none⟩) ∧
     (Json.str "other" ≠ ctx0.nick → ∀ mid cu : Json,
       mesgSample.subscr "msg_id" = .ok mid →
       mesgSample.subscr "channel_url" = .ok cu →
       handler_dispatch ctx0 initialSession 0 "MESG" mesgSample =
         ⟨initialSession, get_ev_invoke ctx0.events "on_message"
           [.message ⟨mid, cu, mesgSample, ctx0.resolveCommand mesgSample⟩],
          none⟩)) :=
  ⟨by decide, by decide,
   mesg_self_discard_or_on_message ctx0 initialSession 0 mesgSample
     mesgSampleUser (.str "other") (by decide) (by decide)⟩

/-- C4: a well-formed `SYEV` frame dispatches on `payload.cat` — 10020 to
invite handling, 10001 to user-exit handling, 10000 to user-join handling,
anything else to the registry default handler only — raises no error, and
in every case afterwards invokes the `on_channel_update` hook with the
channel built from `payload.channel_url`. -/
theorem syev_routes_on_cat_then_channel_update (ctx : HandlerCtx)
    (st : SessionState) (now : Int) (data cu catv : Json)
    (hcu : data.subscr "channel_url" = .ok cu)
    (hcat : data.subscr "cat" = .ok catv)
    (huser : catv = .num 10000 ∨ catv = .num 10001 →
      ∃ d uid, data.subscr "data" = .ok d ∧ d.subscr "user_id" = .ok uid) :
    handler_dispatch ctx st now "SYEV" data =
      ⟨st, (channel_update_route ctx catv data).1 ++
        get_ev_invoke ctx.events "on_channel_update" [.channel cu], none⟩ ∧
    (catv = .num 10020 →
      channel_update_route ctx catv data = handler_on_invite ctx data) ∧
    (catv = .num 10001 →
      channel_update_route ctx catv data = handler_on_user_exit ctx data) ∧
    (catv = .num 10000 →
      channel_update_route ctx catv data = handler_on_user_join ctx data) ∧
    (catv ≠ .num 10020 → catv ≠ .num 10001 → catv ≠ .num 10000 →
      channel_update_route ctx catv data =
        (defaultEvent ctx.events [.json data], none)) := by
  have hroute : (channel_update_route ctx catv data).2 = none := by
    unfold channel_update_route
    by_cases h20 : catv = .num 10020
    · simp only [h20, if_pos rfl]
      unfold handler_on_invite
      by_cases hin : ctx.userInInvitees data <;> simp [hin]
    · by_cases h01 : catv = .num 10001
      · obtain ⟨d, uid, hd, huid⟩ := huser (Or.inr h01)
        simp +decide [h20, h01, handler_on_user_exit, hcu, hd, huid]
      · by_cases h00 : catv = .num 10000
        · obtain ⟨d, uid, hd, huid⟩ := huser (Or.inl h00)
          simp +decide [h20, h01, h00, handler_on_user_join, hcu, hd, huid]
        · simp [h20, h01, h00]
  refine ⟨?_, ?_, ?_, ?_, ?_⟩
  · simp +decide only [handler_dispatch, if_neg, if_pos]
    unfold handler_on_channel_update
    rw [hcu, hcat]
    rcases hE : channel_update_route ctx catv data with ⟨effs, err⟩
    rw [hE] at hroute
    simp at hroute
    subst hroute
    simp [hE]
  · intro h; simp [channel_update_route, h]
  · intro h; subst h; simp +decide [channel_update_route]
  · intro h; subst h; simp +decide [channel_update_route]
  · intro h20 h01 h00; simp [channel_update_route, h20, h01, h00]

/-- C4 witness: a concrete `SYEV` frame with `cat = 10000` routes to the
user-join sub-handler and then invokes `on_channel_update` with the
channel. -/
theorem syev_routes_on_cat_then_channel_update_witness :
    syevJoinSample.subscr "channel_url" = .ok (.str "ch") ∧
    syevJoinSample.subscr "cat" = .ok (.num 10000) ∧
    (Json.num 10000 = .num 10000 ∨ Json.num 10000 = .num 10001 →
      ∃ d uid, syevJoinSample.subscr "data" = .ok d ∧
        d.subscr "user_id" = .ok uid) ∧
    (handler_dispatch ctx0 initialSession 0 "SYEV" syevJoinSample =
      ⟨initialSession, (channel_update_route ctx0 (.num 10000) syevJoinSample).1 ++
        get_ev_invoke ctx0.events "on_channel_update" [.channel (.str "ch")], none⟩ ∧
    (Json.num 10000 = .num 10020 →
      channel_update_route ctx0 (.num 10000) syevJoinSample =
        handler_on_invite ctx0 syevJoinSample) ∧
    (Json.num 10000 = .num 10001 →
      channel_update_route ctx0 (.num 10000) syevJoinSample =
        handler_on_user_exit ctx0 syevJoinSample) ∧
    (Json.num 10000 = .num 10000 →
      channel_update_route ctx0 (.num 10000) syevJoinSample =
        handler_on_user_join ctx0 syevJoinSample) ∧
    (Json.num 10000 ≠ .num 10020 → Json.num 10000 ≠ .num 10001 →
      Json.num 10000 ≠ .num 10000 →
      channel_update_route ctx0 (.num 10000) syevJoinSample =
        (defaultEvent ctx0.events [.json syevJoinSample], none))) :=
  ⟨by decide, by decide,
   fun _ => ⟨.obj (.cons "user_id" (.str "u9") .nil), .str "u9", by decide, by decide⟩,
   syev_routes_on_cat_then_channel_update ctx0 initialSession 0 syevJoinSample
     (.str "ch") (.num 10000) (by decide) (by decide)
     (fun _ => ⟨.obj (.cons "user_id" (.str "u9") .nil), .str "u9", by decide, by decide⟩)⟩

/-- C5: a `SYEV` frame with `cat = 10020` builds the invite record and
invokes exactly one of the two hooks: `on_invite` when the local user is in
the invite's invitee set, `on_invite_broadcast` when not — and never
both. -/
theorem syev_invite_exactly_one_hook (ctx : HandlerCtx) (st : SessionState)
    (now : Int) (data cu : Json)
    (hcu : data.subscr "channel_url" = .ok cu)
    (hcat : data.subscr "cat" = .ok (.num 10020)) :
    handler_dispatch ctx st now "SYEV" data =
      ⟨st, (if ctx.userInInvitees data then
              get_ev_invoke ctx.events "on_invite" [.invite data]
            else get_ev_invoke ctx.events "on_invite_broadcast" [.invite data]) ++
           get_ev_invoke ctx.events "on_channel_update" [.channel cu], none⟩ ∧
    (ctx.userInInvitees data = true → "on_invite" ∈ ctx.events →
      countCalls (handler_dispatch ctx st now "SYEV" data).effects "on_invite" = 1 ∧
      countCalls (handler_dispatch ctx st now "SYEV" data).effects
        "on_invite_broadcast" = 0) ∧
    (ctx.userInInvitees data = false → "on_invite_broadcast" ∈ ctx.events →
      countCalls (handler_dispatch ctx st now "SYEV" data).effects
        "on_invite_broadcast" = 1 ∧
      countCalls (handler_dispatch ctx st now "SYEV" data).effects "on_invite" = 0) := by
  have h1 : handler_dispatch ctx st now "SYEV" data =
      ⟨st, (if ctx.userInInvitees data then
              get_ev_invoke ctx.events "on_invite" [.invite data]
            else get_ev_invoke ctx.events "on_invite_broadcast" [.invite data]) ++
           get_ev_invoke ctx.events "on_channel_update" [.channel cu], none⟩ := by
    simp +decide only [handler_dispatch, if_neg, if_pos]
    unfold handler_on_channel_update
    rw [hcu, hcat]
    simp only [channel_update_route, if_pos rfl]
    unfold handler_on_invite
    by_cases hin : ctx.userInInvitees data <;> simp [hin]
  refine ⟨h1, ?_, ?_⟩
  · intro hin hmem
    rw [h1]
    simp +decide [countCalls_append, countCalls_get_ev, hin, hmem]
  · intro hin hmem
    rw [h1]
    simp +decide [countCalls_append, countCalls_get_ev, hin, hmem]

/-- C5 witness: a concrete invite event against `ctx0`, whose local user is
in no invitee set, invokes `on_invite_broadcast` once and `on_invite` not
at all. -/
theorem syev_invite_exactly_one_hook_witness :
    syevInviteSample.subscr "channel_url" = .ok (.str "ch") ∧
    syevInviteSample.subscr "cat" = .ok (.num 10020) ∧
    (handler_dispatch ctx0 initialSession 0 "SYEV" syevInviteSample =
      ⟨initialSession,
       (if ctx0.userInInvitees syevInviteSample then
          get_ev_invoke ctx0.events "on_invite" [.invite syevInviteSample]
        else get_ev_invoke ctx0.events "on_invite_broadcast"
          [.invite syevInviteSample]) ++
       get_ev_invoke ctx0.events "on_channel_update" [.channel (.str "ch")],
       none⟩ ∧
    (ctx0.userInInvitees syevInviteSample = true → "on_invite" ∈ ctx0.events →
      countCalls (handler_dispatch ctx0 initialSession 0 "SYEV"
        syevInviteSample).effects "on_invite" = 1 ∧
      countCalls (handler_dispatch ctx0 initialSession 0 "SYEV"
        syevInviteSample).effects "on_invite_broadcast" = 0) ∧
    (ctx0.userInInvitees syevInviteSample = false →
      "on_invite_broadcast" ∈ ctx0.events →
      countCalls (handler_dispatch ctx0 initialSession 0 "SYEV"
        syevInviteSample).effects "on_invite_broadcast" = 1 ∧
      countCalls (handler_dispatch ctx0 initialSession 0 "SYEV"
        syevInviteSample).effects "on_invite" = 0)) :=
  ⟨by decide, by decide,
   syev_invite_exactly_one_hook ctx0 initialSession 0 syevInviteSample
     (.str "ch") (by decide) (by decide)⟩

/-- C6 counterexample: the claim's invariant — connected implies a session
key is present — fails after a `LOGI` frame whose `key` field is JSON
`null`: the handler stores Python `None` as the session key and still sets
`connected` to true. -/
theorem logi_null_key_breaks_invariant :
    sessionInv initialSession ∧
    ¬ sessionInv (handler_dispatch ctx0 initialSession 0 "LOGI"
        (.obj (.cons "key" .null .nil))).state := by decide

/-- C6 (amended): provided every `LOGI` payload's `key` field is non-null,
the invariant (connected implies a session key is present) is preserved by
the dispatch of every frame; and the `LOGI` handler stores the payload's
key, sets connected to true, and invokes `on_connect` with the payload. -/
theorem session_invariant_preserved (ctx : HandlerCtx) (st : SessionState)
    (now : Int) (key : String) (data : Json) (hinv : sessionInv st)
    (hkey : key = "LOGI" → ∀ k, data.subscr "key" = .ok k → k ≠ .null) :
    sessionInv (handler_dispatch ctx st now key data).state ∧
    (key = "LOGI" → ∀ k, data.subscr "key" = .ok k →
      handler_dispatch ctx st now key data =
        ⟨⟨k, true⟩, get_ev_invoke ctx.events "on_connect" [.json data], none⟩) := by
  constructor
  · rcases handler_dispatch_state ctx st now key data with h | ⟨hL, k, hk, hstate⟩
    · rw [h]; exact hinv
    · rw [hstate]; exact fun _ => hkey hL k hk
  · intro hL k hk
    subst hL
    simp +decide only [handler_dispatch, if_neg, if_pos]
    simp [handler_on_connect, hk]

/-- C6 witness: a `LOGI` frame with the key `s3ss10n` preserves the
invariant and connects with that key stored. -/
theorem session_invariant_preserved_witness :
    sessionInv initialSession ∧
    ("LOGI" = "LOGI" → ∀ k, logiSample.subscr "key" = .ok k → k ≠ .null) ∧
    (sessionInv (handler_dispatch ctx0 initialSession 0 "LOGI" logiSample).state ∧
     ("LOGI" = "LOGI" → ∀ k, logiSample.subscr "key" = .ok k →
       handler_dispatch ctx0 initialSession 0 "LOGI" logiSample =
         ⟨⟨k, true⟩, get_ev_invoke ctx0.events "on_connect" [.json logiSample],
          none⟩)) :=
  ⟨by decide,
   fun _ k hk => by
     simp [logiSample, Json.subscr, JsonObj.lookup] at hk
     subst hk
     decide,
   session_invariant_preserved ctx0 initialSession 0 "LOGI" logiSample
     (by decide)
     (fun _ k hk => by
       simp [logiSample, Json.subscr, JsonObj.lookup] at hk
       subst hk
       decide)⟩

/-- C7: the claim says a second `login` on an authenticated client raises
`AlreadyAuthenticated` and leaves token and config unchanged.  The code
path does surface an error immediately with nothing mutated, no request
issued and nothing returned — but the error is a `NameError`, because
`AlreadyAuthenticated` is not among the exception names `_client.py`
imports and is defined nowhere in the module. -/
theorem login_when_authenticated_nameerror (env : HttpEnv) (c : ClientState)
    (email : String) (force : Bool) (h : c.authenticated = true) :
    login env c email force =
      ⟨c, [], some (.nameError "AlreadyAuthenticated"), false⟩ := by
  simp [login, h]

/-- C7 witness: a concrete authenticated client calling `login`. -/
theorem login_when_authenticated_nameerror_witness :
    authedClient.authenticated = true ∧
    login env0 authedClient "user@example.com" false =
      ⟨authedClient, [], some (.nameError "AlreadyAuthenticated"), false⟩ :=
  ⟨rfl, login_when_authenticated_nameerror env0 authedClient
    "user@example.com" false rfl⟩

/-- C8: during the password grant, a 403 on the token POST causes exactly
one retry after a fixed `sleep 10`; after the single retry (or with no
retry for any other status) a non-200 response raises `BadAPIResponse`.
The other REST operations of the system each perform exactly one request
whatever the status — the login retry is the only retry policy. -/
theorem login_grant_single_retry_policy (env : HttpEnv) (c : ClientState)
    (email : String) (hauth : c.authenticated = false) :
    ((env.tokenStatus1 = 403 →
        (login env c email true).effects = [.postToken, .sleep 10, .postToken] ∧
        (env.tokenStatus2 ≠ 200 →
          (login env c email true).err = some .badAPIResponse)) ∧
     (env.tokenStatus1 ≠ 403 →
        (login env c email true).effects = [.postToken] ∧
        (env.tokenStatus1 ≠ 200 →
          (login env c email true).err = some .badAPIResponse))) ∧
    (∀ status body, (channels_paginated status body).1 = [.getChannels]) ∧
    (∀ status body, (sendbird_upload status body).1 = [.postUpload]) ∧
    (∀ status, (post_image status).1 = [.postImage]) := by
  have hL : login env c email true = grantFlow env c email [] := by
    simp [login, hauth]
  refine ⟨⟨?_, ?_⟩, ?_, ?_, ?_⟩
  · intro h403
    rw [hL]
    unfold grantFlow
    rw [if_pos h403]
    by_cases hs2 : env.tokenStatus2 ≠ 200
    · simp [hs2]
    · rcases hb : env.tokenBody2.subscr "access_token" with e | tok <;>
        simp [hs2, finishLogin, hb]
  · intro h403
    rw [hL]
    unfold grantFlow
    rw [if_neg h403]
    by_cases hs1 : env.tokenStatus1 ≠ 200
    · simp [hs1]
    · rcases hb : env.tokenBody1.subscr "access_token" with e | tok <;>
        simp [hs1, finishLogin, hb]
  · intro status body
    by_cases hs : status ≠ 200 <;>
      rcases hn : body.subscr "next" with e | v <;>
        rcases hc : body.subscr "channels" with e2 | v2 <;>
          simp [channels_paginated, hs, hn, hc]
  · intro status body
    by_cases hs : status ≠ 200 <;>
      rcases hu : body.subscr "url" with e | v <;>
        simp [sendbird_upload, hs, hu]
  · intro status
    rfl

/-- C8 witness: a fresh client logging in against an environment whose
first grant POST returns 403 and whose retry returns 500. -/
theorem login_grant_single_retry_policy_witness :
    freshClient.authenticated = false ∧
    (((env403.tokenStatus1 = 403 →
        (login env403 freshClient "e" true).effects =
          [.postToken, .sleep 10, .postToken] ∧
        (env403.tokenStatus2 ≠ 200 →
          (login env403 freshClient "e" true).err = some .badAPIResponse)) ∧
      (env403.tokenStatus1 ≠ 403 →
        (login env403 freshClient "e" true).effects = [.postToken] ∧
        (env403.tokenStatus1 ≠ 200 →
          (login env403 freshClient "e" true).err = some .badAPIResponse))) ∧
     (∀ status body, (channels_paginated status body).1 = [.getChannels]) ∧
     (∀ status body, (sendbird_upload status body).1 = [.postUpload]) ∧
     (∀ status, (post_image status).1 = [.postImage])) :=
  ⟨rfl, login_grant_single_retry_policy env403 freshClient "e" rfl⟩

/-- C9: the claim says concurrent `next_req_id` calls never yield
duplicates.  The increment is lock-protected but the returned read happens
after the lock is released, so in the interleaving where both increments
precede both reads, two concurrent calls starting from counter `c` both
complete (pc = 2) and both return `c + 2`: a duplicate, for every `c`. -/
theorem next_req_id_duplicates_under_interleaving (c : Int) :
    (runSched ⟨c, 0, 0, none, none⟩ [false, true, false, true]).pc0 = 2 ∧
    (runSched ⟨c, 0, 0, none, none⟩ [false, true, false, true]).pc1 = 2 ∧
    (runSched ⟨c, 0, 0, none, none⟩ [false, true, false, true]).ret0 = some (c + 2) ∧
    (runSched ⟨c, 0, 0, none, none⟩ [false, true, false, true]).ret1 = some (c + 2) := by
  simp [runSched, allocStep]
  omega

/-- C10: each of the three registration decorators' inner functions stores
the handler in its table under the chosen name but returns `None` (the
second component), so decorator application rebinds the decorated name to
`None` rather than to the original function. -/
theorem decorator_inner_returns_none (events commands : List (String × RegVal))
    (name : Option String) (methodName : String) :
    (handler_add_inner events name methodName).2 = none ∧
    (client_command_inner commands name methodName).2 = none ∧
    (client_event_inner events name methodName).2 = none ∧
    (handler_add_inner events name methodName).1.lookup (name.getD methodName) =
      some (.raw methodName) ∧
    (client_command_inner commands name methodName).1.lookup
      (name.getD methodName) = some (.command methodName (name.getD methodName)) ∧
    (client_event_inner events name methodName).1.lookup (name.getD methodName) =
      some (.event methodName (name.getD methodName)) :=
  ⟨rfl, rfl, rfl,
   assocSet_lookup events (name.getD methodName) (.raw methodName),
   assocSet_lookup commands (name.getD methodName)
     (.command methodName (name.getD methodName)),
   assocSet_lookup events (name.getD methodName)
     (.event methodName (name.getD methodName))⟩
